import Mathlib

/-!
Shallow embedding of the changedetection adapter: `server.py` (the tool
front end and the HTTP client `ChangeDetectionClient`) and
`api/serverless.py` (the serverless HTTP front end).  JSON values are
modelled by `JVal`; outbound HTTP traffic is modelled by an oracle that
maps each outbound request to the remote outcome, and each handler
returns the list of outbound requests it issued together with its
result.
-/

set_option maxHeartbeats 1000000
set_option maxRecDepth 4000

/-- JSON-like values as produced by Python `json.loads`: strings,
integers, booleans, `None`, dicts (association lists in insertion
order; `json.loads` yields unique keys) and lists. -/
inductive JVal where
  | str (s : String)
  | num (n : Int)
  | bool (b : Bool)
  | null
  | obj (fields : List (String × JVal))
  | arr (items : List JVal)

/-- Characters stripped by `sanitize_input` (serverless.py:85): `<`,
`>`, the double quote, the single quote (code 39), `&`, `;`. -/
def dangerous_chars : List Char := ['<', '>', '"', Char.ofNat 39, '&', ';']

/-- One Python `data.replace(char, "")` step: removes every occurrence
of `c`. -/
def pyReplace (l : List Char) (c : Char) : List Char :=
  l.filter (fun x => !(x == c))

/-- Python `str.strip` whitespace test (ASCII whitespace characters). -/
def pySpace (c : Char) : Bool :=
  c == ' ' || c == '\t' || c == '\n' || c == '\r' ||
    c == Char.ofNat 11 || c == Char.ofNat 12

/-- Remove leading whitespace. -/
def stripLeft (l : List Char) : List Char := l.dropWhile pySpace

/-- Remove trailing whitespace. -/
def stripRight (l : List Char) : List Char :=
  (l.reverse.dropWhile pySpace).reverse

/-- Python `str.strip()`: remove leading and trailing whitespace. -/
def pyStrip (l : List Char) : List Char := stripRight (stripLeft l)

/-- String case of `sanitize_input` (serverless.py:83-88): remove each
dangerous character in turn (the `for char in dangerous_chars` loop of
`replace` calls), then `strip()` surrounding whitespace. -/
def sanitizeStr (s : String) : String :=
  String.mk (pyStrip (dangerous_chars.foldl pyReplace s.data))

mutual

/-- Embeds `sanitize_input` (serverless.py:81-93): sanitize strings, recurse
into dict values (keys untouched) and list items, return everything
else unchanged. -/
def sanitize_input : JVal → JVal
  | .str s => .str (sanitizeStr s)
  | .obj fields => .obj (sanitizeFields fields)
  | .arr items => .arr (sanitizeItems items)
  | .num n => .num n
  | .bool b => .bool b
  | .null => .null

/-- The dict comprehension of `sanitize_input`: keys kept, values
sanitized, insertion order kept. -/
def sanitizeFields : List (String × JVal) → List (String × JVal)
  | [] => []
  | (k, v) :: rest => (k, sanitize_input v) :: sanitizeFields rest

/-- The list comprehension of `sanitize_input`: items sanitized in
order. -/
def sanitizeItems : List JVal → List JVal
  | [] => []
  | v :: rest => sanitize_input v :: sanitizeItems rest

end

/-- Modelled from the spec: strip exactly the six dangerous characters
(angle brackets, double quote, single quote, ampersand, semicolon) — a
single filter removing precisely those — then trim surrounding
whitespace on each string. -/
def sanitizeStrSpec (s : String) : String :=
  String.mk (pyStrip (s.data.filter (fun c => !(dangerous_chars.contains c))))

mutual

/-- Modelled from the spec: recursively apply the string
sanitization to every string value, preserving mapping keys and
sequence order, and leaving every non-string leaf unchanged. -/
def sanitizeSpec : JVal → JVal
  | .str s => .str (sanitizeStrSpec s)
  | .obj fields => .obj (sanitizeSpecFields fields)
  | .arr items => .arr (sanitizeSpecItems items)
  | .num n => .num n
  | .bool b => .bool b
  | .null => .null

/-- Spec-side recursion into mapping values, keys preserved. -/
def sanitizeSpecFields : List (String × JVal) → List (String × JVal)
  | [] => []
  | (k, v) :: rest => (k, sanitizeSpec v) :: sanitizeSpecFields rest

/-- Spec-side recursion into sequence items, order preserved. -/
def sanitizeSpecItems : List JVal → List JVal
  | [] => []
  | v :: rest => sanitizeSpec v :: sanitizeSpecItems rest

end

/-- Python truthiness (`if not x`) on JSON values: the empty string,
zero, `False`, `None`, and empty containers are falsy. -/
def jTruthy : JVal → Bool
  | .str s => s != ""
  | .num n => n != 0
  | .bool b => b
  | .null => false
  | .obj fields => !fields.isEmpty
  | .arr items => !items.isEmpty

/-- Truthiness of `dict.get(...)` results: `None` (absent key) is
falsy. -/
def optTruthy : Option JVal → Bool
  | none => false
  | some v => jTruthy v

/-- The single-quote character, as used by Python `repr` of strings. -/
def squote : String := String.mk [Char.ofNat 39]

mutual

/-- Python `repr` of a JSON value (up to string escaping). -/
def pyRepr : JVal → String
  | .str s => squote ++ s ++ squote
  | .num n => toString n
  | .bool b => if b then "True" else "False"
  | .null => "None"
  | .obj fields => "\x7b" ++ pyReprFields fields ++ "\x7d"
  | .arr items => "[" ++ pyReprItems items ++ "]"

/-- Comma-joined `repr` of dict entries. -/
def pyReprFields : List (String × JVal) → String
  | [] => ""
  | [(k, v)] => squote ++ k ++ squote ++ ": " ++ pyRepr v
  | (k, v) :: rest =>
      squote ++ k ++ squote ++ ": " ++ pyRepr v ++ ", " ++ pyReprFields rest

/-- Comma-joined `repr` of list items. -/
def pyReprItems : List JVal → String
  | [] => ""
  | [v] => pyRepr v
  | v :: rest => pyRepr v ++ ", " ++ pyReprItems rest

end

/-- Python `str` of a JSON value, as used by f-strings and
`str(result)`: strings unquoted, containers via `repr`. -/
def pyStr : JVal → String
  | .str s => s
  | v => pyRepr v

/-- Lookup in a dict modelled as an association list (keys unique, so
first match is the dict entry). -/
def jLookup : List (String × JVal) → String → Option JVal
  | [], _ => none
  | (k, v) :: rest, key => if k = key then some v else jLookup rest key

/-- An exception raised by Python code outside this repository (httpx
transport errors, `raise_for_status`, JSON decode errors, attribute and
type errors): the exception class name and `str(e)`. -/
structure PyExc where
  ename : String
  msg : String

/-- Embeds `ServerlessError` (serverless.py:40-47): message, status code, and
details (defaulting to the empty dict). -/
structure SErr where
  message : String
  status_code : Nat
  details : JVal

/-- HTTP method as used by `ChangeDetectionClient._request`. -/
inductive Method where
  | GET
  | POST
  | DELETE
  | PUT

/-- One outbound call to the changedetection service: method, endpoint
path (appended to the configured base URL), and optional JSON body. -/
structure HttpRequest where
  method : Method
  path : String
  body : Option JVal

/-- The remote service plus transport, abstracted: each outbound
request either yields parsed response JSON (a 2xx response; the empty
dict for an empty body) or raises an exception (timeout, transport
failure, non-2xx via `raise_for_status`, or JSON decode failure). -/
def Oracle : Type := HttpRequest → Except PyExc JVal

/-- Process configuration read from the environment at startup. -/
structure Config where
  baseUrl : String
  apiKey : String
  debug : Bool
  enableCors : Bool
  allowedOrigins : List String

/-- The `ChangeDetectionClient.list_watches` request (server.py:68-70). -/
def listWatchesReq : HttpRequest := ⟨.GET, "/api/v1/watch", none⟩

/-- The `ChangeDetectionClient.get_watch` request (server.py:72-74); the
f-string applies Python `str` to the argument. -/
def getWatchReq (watch_id : JVal) : HttpRequest :=
  ⟨.GET, "/api/v1/watch/" ++ pyStr watch_id, none⟩

/-- The body built by `ChangeDetectionClient.create_watch`
(server.py:76-81): `{"url": url}`, with `"tag"` added only when `tag`
is truthy. -/
def createWatchBody (url : JVal) (tag : Option JVal) : JVal :=
  if optTruthy tag then .obj [("url", url), ("tag", tag.getD .null)]
  else .obj [("url", url)]

/-- The `ChangeDetectionClient.create_watch` request (server.py:76-81). -/
def createWatchReq (url : JVal) (tag : Option JVal) : HttpRequest :=
  ⟨.POST, "/api/v1/watch", some (createWatchBody url tag)⟩

/-- The `ChangeDetectionClient.delete_watch` request (server.py:83-85). -/
def deleteWatchReq (watch_id : JVal) : HttpRequest :=
  ⟨.DELETE, "/api/v1/watch/" ++ pyStr watch_id, none⟩

/-- The `ChangeDetectionClient.trigger_check` request (server.py:87-89). -/
def triggerCheckReq (watch_id : JVal) : HttpRequest :=
  ⟨.GET, "/api/v1/watch/" ++ pyStr watch_id ++ "/trigger", none⟩

/-- The `ChangeDetectionClient.get_history` request (server.py:91-93). -/
def getHistoryReq (watch_id : JVal) : HttpRequest :=
  ⟨.GET, "/api/v1/watch/" ++ pyStr watch_id ++ "/history", none⟩

/-- The `ChangeDetectionClient.system_info` request (server.py:95-97). -/
def systemInfoReq : HttpRequest := ⟨.GET, "/api/v1/systeminfo", none⟩

/-- The `ServerlessError` raised by the generic catch-all clause of
`handle_action` (serverless.py:195-201): message `Internal server
error: ` plus `str(e)`, status 500, details naming the action and the
exception class. -/
def internalErr (action : String) (ex : PyExc) : SErr :=
  ⟨"Internal server error: " ++ ex.msg, 500,
    .obj [("action", .str action), ("error_type", .str ex.ename)]⟩

/-- Issue one outbound call from `handle_action`: on success wrap the
decoded JSON as `{"success": True, "data": result}`; an exception from
the client is converted by the generic `except` clause. -/
def runRemote (oracle : Oracle) (action : String) (req : HttpRequest) :
    List HttpRequest × Except SErr JVal :=
  match oracle req with
  | .ok j => ([req], .ok (.obj [("success", .bool true), ("data", j)]))
  | .error ex => ([req], .error (internalErr action ex))

/-- Python `params.get(field)` inside `handle_action`: succeeds on a
dict, raises `AttributeError` on anything else (converted by the
generic `except` clause into an internal `ServerlessError`). -/
def paramsGet (params : JVal) (field : String) : Except PyExc (Option JVal) :=
  match params with
  | .obj fields => .ok (jLookup fields field)
  | _ => .error ⟨"AttributeError", "object has no attribute " ++ squote ++ "get" ++ squote⟩

/-- The `watch_id = params.get(...); if not watch_id: raise
ServerlessError("... is required", 400)` pattern of `handle_action`
(serverless.py:139-173). -/
def requireParam (action : String) (params : JVal) (field : String)
    (k : JVal → List HttpRequest × Except SErr JVal) :
    List HttpRequest × Except SErr JVal :=
  match paramsGet params field with
  | .error ex => ([], .error (internalErr action ex))
  | .ok v =>
      if optTruthy v then k (v.getD .null)
      else ([], .error ⟨field ++ " is required", 400, .obj []⟩)

/-- Embeds `handle_action` (serverless.py:132-201): route the action to the
client method, enforcing required parameters first; `health_check`
short-circuits without any outbound call; unknown actions raise a 400
`ServerlessError`.  Returns the outbound requests issued and either the
success payload or the raised `ServerlessError`. -/
def handle_action (cfg : Config) (oracle : Oracle) (action : String)
    (params : JVal) : List HttpRequest × Except SErr JVal :=
  if action = "list_watches" then
    runRemote oracle action listWatchesReq
  else if action = "get_watch" then
    requireParam action params "watch_id"
      (fun w => runRemote oracle action (getWatchReq w))
  else if action = "create_watch" then
    match paramsGet params "url" with
    | .error ex => ([], .error (internalErr action ex))
    | .ok url =>
        match paramsGet params "tag" with
        | .error ex => ([], .error (internalErr action ex))
        | .ok tag =>
            if optTruthy url then
              runRemote oracle action (createWatchReq (url.getD .null) tag)
            else ([], .error ⟨"url is required", 400, .obj []⟩)
  else if action = "delete_watch" then
    requireParam action params "watch_id"
      (fun w => runRemote oracle action (deleteWatchReq w))
  else if action = "trigger_check" then
    requireParam action params "watch_id"
      (fun w => runRemote oracle action (triggerCheckReq w))
  else if action = "get_history" then
    requireParam action params "watch_id"
      (fun w => runRemote oracle action (getHistoryReq w))
  else if action = "system_info" then
    runRemote oracle action systemInfoReq
  else if action = "health_check" then
    ([], .ok (.obj [("success", .bool true), ("status", .str "healthy"),
      ("data", .obj [("changedetection_url", .str cfg.baseUrl),
        ("api_key_configured", .bool (cfg.apiKey != ""))])]))
  else
    ([], .error ⟨"Unknown action: " ++ action, 400, .obj []⟩)

/-- One tool call issuing a remote request (server.py:195-260): on
success the reply is `str(result)`, and an exception from the client is
caught by the surrounding `except` and becomes `Error: {str(e)}`. -/
def toolText (oracle : Oracle) (req : HttpRequest) :
    List HttpRequest × List String :=
  match oracle req with
  | .ok j => ([req], [pyStr j])
  | .error ex => ([req], ["Error: " ++ ex.msg])

/-- The `watch_id = arguments.get(...); if not watch_id: return
[TextContent("Error: ... is required")]` pattern of `call_tool`. -/
def toolRequire (args : List (String × JVal)) (field : String)
    (k : JVal → List HttpRequest × List String) :
    List HttpRequest × List String :=
  if optTruthy (jLookup args field) then k ((jLookup args field).getD .null)
  else ([], ["Error: " ++ field ++ " is required"])

/-- Embeds `call_tool` (server.py:195-260): the tool front end.  The arguments
mapping is the dict delivered by the tool transport.  Returns the
outbound requests issued and the text contents of the reply. -/
def call_tool (oracle : Oracle) (name : String)
    (args : List (String × JVal)) : List HttpRequest × List String :=
  if name = "list_watches" then
    toolText oracle listWatchesReq
  else if name = "get_watch" then
    toolRequire args "watch_id" (fun w => toolText oracle (getWatchReq w))
  else if name = "create_watch" then
    (if optTruthy (jLookup args "url") then
      toolText oracle
        (createWatchReq ((jLookup args "url").getD .null) (jLookup args "tag"))
    else ([], ["Error: url is required"]))
  else if name = "delete_watch" then
    toolRequire args "watch_id" (fun w => toolText oracle (deleteWatchReq w))
  else if name = "trigger_check" then
    toolRequire args "watch_id" (fun w => toolText oracle (triggerCheckReq w))
  else if name = "get_history" then
    toolRequire args "watch_id" (fun w => toolText oracle (getHistoryReq w))
  else if name = "system_info" then
    toolText oracle systemInfoReq
  else
    ([], ["Error: Unknown tool " ++ squote ++ name ++ squote])

/-- The `valid_actions` list of `validate_request`
(serverless.py:62-71). -/
def validActions : List String :=
  ["list_watches", "get_watch", "create_watch", "delete_watch",
   "trigger_check", "get_history", "system_info", "health_check"]

/-- Python `==` between a JSON value and a `str` (as evaluated by `in`
on a list of strings): only equal strings compare equal. -/
def jvalEqStr (v : JVal) (s : String) : Bool :=
  match v with
  | .str t => t == s
  | _ => false

/-- Python `key in body` for a string key: key membership on dicts,
element equality on lists, substring test on strings, `TypeError` on
non-containers. -/
def pyContains (body : JVal) (key : String) : Except PyExc Bool :=
  match body with
  | .obj fields => .ok (jLookup fields key).isSome
  | .arr items => .ok (items.any (fun v => jvalEqStr v key))
  | .str s => .ok (decide (key.data <:+: s.data))
  | _ => .error ⟨"TypeError", "argument of type is not iterable"⟩

/-- Python `body[key]` for a string key: dict item access; `TypeError`
on lists (indices must be integers), strings and non-containers. -/
def pyGetItem (body : JVal) (key : String) : Except PyExc JVal :=
  match body with
  | .obj fields =>
      match jLookup fields key with
      | some v => .ok v
      | none => .error ⟨"KeyError", key⟩
  | _ => .error ⟨"TypeError", "indices must be integers"⟩

/-- Python `body.get(key, default)`: defaulting dict lookup,
`AttributeError` on non-dicts. -/
def pyDictGet (body : JVal) (key : String) (dflt : JVal) :
    Except PyExc JVal :=
  match body with
  | .obj fields => .ok ((jLookup fields key).getD dflt)
  | _ => .error ⟨"AttributeError", "object has no attribute " ++ squote ++ "get" ++ squote⟩

/-- A failure inside the guarded block of `async_handler`: either a
raised `ServerlessError` or any other Python exception. -/
inductive HandlerErr where
  | serverless (e : SErr)
  | pyExc (ex : PyExc)

/-- Embeds `validate_request` (serverless.py:50-78): require the `action`
field, then require its value to be one of the eight valid actions.
Python evaluation order is kept: `"action" in body`, then
`body["action"] not in valid_actions`. -/
def validate_request (body : JVal) : Except HandlerErr Unit :=
  match pyContains body "action" with
  | .error ex => .error (.pyExc ex)
  | .ok false =>
      .error (.serverless ⟨"Missing required field: action", 400,
        .obj [("required_fields", .arr [.str "action"])]⟩)
  | .ok true =>
      match pyGetItem body "action" with
      | .error ex => .error (.pyExc ex)
      | .ok a =>
          if validActions.any (fun s => jvalEqStr a s) then .ok ()
          else .error (.serverless ⟨"Invalid action: " ++ pyStr a, 400,
            .obj [("valid_actions", .arr (validActions.map JVal.str))]⟩)

/-- The request body as seen after `json.loads` (serverless.py:215-223):
either the parsed JSON value (also covers a body already delivered as a
dict) or a `json.JSONDecodeError` carrying its message.  A missing
`"body"` key defaults to `"{}"`, i.e. `.ok (.obj [])`. -/
inductive ParsedBody where
  | ok (v : JVal)
  | jsonError (msg : String)

/-- The serverless event: the inbound HTTP method and the request
body. -/
structure Event where
  httpMethod : String
  body : ParsedBody

/-- The response object built by `create_response` (serverless.py:96-129):
status code, headers, and the dict passed to `json.dumps` as the body. -/
structure Response where
  statusCode : Nat
  headers : List (String × String)
  body : JVal

/-- Headers set by `create_response`: the fixed security headers, plus
CORS headers (first configured origin, or `*`) when CORS is enabled. -/
def responseHeaders (cfg : Config) : List (String × String) :=
  [("Content-Type", "application/json"),
   ("X-Content-Type-Options", "nosniff"),
   ("X-Frame-Options", "DENY"),
   ("X-XSS-Protection", "1; mode=block")] ++
  (if cfg.enableCors then
    [("Access-Control-Allow-Origin", cfg.allowedOrigins.headD "*"),
     ("Access-Control-Allow-Methods", "GET, POST, OPTIONS"),
     ("Access-Control-Allow-Headers", "Content-Type, Authorization")]
   else [])

/-- Embeds `create_response` (serverless.py:96-129): attach headers and inject
the `_metadata` field (current UTC timestamp `now`, fixed version) into
the body dict last. -/
def create_response (cfg : Config) (status_code : Nat) (body : JVal)
    (now : String) : Response :=
  { statusCode := status_code,
    headers := responseHeaders cfg,
    body :=
      match body with
      | .obj fields =>
          .obj (fields ++ [("_metadata",
            .obj [("timestamp", .str now), ("version", .str "1.0.0")])])
      | v => v }

/-- The `try` block of `async_handler` past the OPTIONS shortcut
(serverless.py:214-243): parse, validate, sanitize action and params,
dispatch.  Returns the outbound requests issued and either the success
payload or the failure. -/
def asyncCore (cfg : Config) (oracle : Oracle) (event : Event) :
    List HttpRequest × Except HandlerErr JVal :=
  match event.body with
  | .jsonError m =>
      ([], .error (.serverless ⟨"Invalid JSON in request body", 400,
        .obj [("error", .str m)]⟩))
  | .ok body =>
      match validate_request body with
      | .error e => ([], .error e)
      | .ok _ =>
          match pyGetItem body "action" with
          | .error ex => ([], .error (.pyExc ex))
          | .ok aRaw =>
              match pyDictGet body "params" (.obj []) with
              | .error ex => ([], .error (.pyExc ex))
              | .ok rawParams =>
                  match sanitize_input aRaw with
                  | .str a =>
                      let pr := handle_action cfg oracle a (sanitize_input rawParams)
                      (pr.1, pr.2.mapError .serverless)
                  | v =>
                      ([], .error (.serverless ⟨"Unknown action: " ++ pyStr v,
                        400, .obj []⟩))

/-- The body of the response built from a raised `ServerlessError`
(serverless.py:253-269). -/
def serverlessErrBody (e : SErr) : JVal :=
  .obj [("success", .bool false), ("error", .str e.message),
    ("details", e.details)]

/-- The body of the response built from any other exception
(serverless.py:271-284): the real `str(e)` only in debug mode. -/
def unexpectedErrBody (debug : Bool) (ex : PyExc) : JVal :=
  .obj [("success", .bool false), ("error", .str "Internal server error"),
    ("message", .str (if debug then ex.msg else "An unexpected error occurred"))]

/-- Embeds `async_handler` (serverless.py:204-284): OPTIONS short-circuit,
then the `try` block with its two `except` clauses shaping the final
response.  Returns the outbound requests issued and the response. -/
def asyncHandler (cfg : Config) (oracle : Oracle) (now : String)
    (event : Event) : List HttpRequest × Response :=
  if event.httpMethod = "OPTIONS" then
    ([], create_response cfg 200 (.obj [("message", .str "CORS preflight OK")]) now)
  else
    match asyncCore cfg oracle event with
    | (tr, .ok result) => (tr, create_response cfg 200 result now)
    | (tr, .error (.serverless e)) =>
        (tr, create_response cfg e.status_code (serverlessErrBody e) now)
    | (tr, .error (.pyExc ex)) =>
        (tr, create_response cfg 500 (unexpectedErrBody cfg.debug ex) now)

theorem foldl_pyReplace_eq_filter :
    ∀ (cs : List Char) (l : List Char),
      cs.foldl pyReplace l = l.filter (fun x => !(cs.contains x))
  | [], l => by simp
  | c :: cs, l => by
      rw [List.foldl_cons, foldl_pyReplace_eq_filter cs (pyReplace l c)]
      unfold pyReplace
      rw [List.filter_filter]
      apply List.filter_congr
      intro x _
      simp only [List.contains_cons, Bool.not_or]
      rw [Bool.and_comm]

theorem dropWhile_self {α : Type} (p : α → Bool) (l : List α) :
    (l.dropWhile p).dropWhile p = l.dropWhile p := by
  induction l with
  | nil => rfl
  | cons a t ih =>
      cases h : p a with
      | true => rw [List.dropWhile_cons_of_pos h, ih]
      | false =>
          rw [List.dropWhile_cons_of_neg (by simp [h]),
            List.dropWhile_cons_of_neg (by simp [h])]

theorem dropWhile_eq_self_of_append {α : Type} (p : α → Bool)
    (l l₂ t : List α) (hm : l.dropWhile p = l) (hd : l = l₂ ++ t) :
    l₂.dropWhile p = l₂ := by
  cases l₂ with
  | nil => rfl
  | cons a u =>
      cases h : p a with
      | false => exact List.dropWhile_cons_of_neg (by simp [h])
      | true =>
          exfalso
          subst hd
          rw [List.cons_append, List.dropWhile_cons_of_pos h] at hm
          have hle := (List.dropWhile_sublist (l := u ++ t) p).length_le
          rw [hm] at hle
          simp at hle

theorem stripRight_decomp (m : List Char) :
    ∃ t, m = stripRight m ++ t := by
  refine ⟨(m.reverse.takeWhile pySpace).reverse, ?_⟩
  rw [stripRight, ← List.reverse_append, List.takeWhile_append_dropWhile,
    List.reverse_reverse]

theorem pyStrip_idem (l : List Char) : pyStrip (pyStrip l) = pyStrip l := by
  unfold pyStrip
  have h1 : (stripLeft l).dropWhile pySpace = stripLeft l := by
    unfold stripLeft
    exact dropWhile_self pySpace l
  obtain ⟨t, ht⟩ := stripRight_decomp (stripLeft l)
  have h2 : stripLeft (stripRight (stripLeft l)) = stripRight (stripLeft l) :=
    dropWhile_eq_self_of_append pySpace (stripLeft l)
      (stripRight (stripLeft l)) t h1 ht
  rw [h2]
  unfold stripRight
  rw [List.reverse_reverse, dropWhile_self]

theorem pyStrip_subset (l : List Char) (x : Char) (hx : x ∈ pyStrip l) :
    x ∈ l := by
  obtain ⟨t, ht⟩ := stripRight_decomp (stripLeft l)
  have hx2 : x ∈ stripLeft l := by
    rw [ht]
    exact List.mem_append_left t hx
  exact List.dropWhile_subset pySpace hx2

theorem sanitizeStr_eq_spec (s : String) : sanitizeStr s = sanitizeStrSpec s := by
  unfold sanitizeStr sanitizeStrSpec
  rw [foldl_pyReplace_eq_filter]

theorem sanitizeStr_idem (s : String) :
    sanitizeStr (sanitizeStr s) = sanitizeStr s := by
  unfold sanitizeStr
  rw [foldl_pyReplace_eq_filter, foldl_pyReplace_eq_filter]
  have hdata : (String.mk (pyStrip (s.data.filter
      (fun x => !(dangerous_chars.contains x))))).data =
      pyStrip (s.data.filter (fun x => !(dangerous_chars.contains x))) := rfl
  rw [hdata]
  have hfix : (pyStrip (s.data.filter (fun x => !(dangerous_chars.contains x)))).filter
      (fun x => !(dangerous_chars.contains x)) =
      pyStrip (s.data.filter (fun x => !(dangerous_chars.contains x))) := by
    apply List.filter_eq_self.mpr
    intro a ha
    have h2 : a ∈ s.data.filter (fun x => !(dangerous_chars.contains x)) :=
      pyStrip_subset _ a ha
    simpa using List.of_mem_filter h2
  rw [hfix, pyStrip_idem]

mutual

theorem sanitizeAux : (v : JVal) → sanitize_input v = sanitizeSpec v
  | .str s => congrArg JVal.str (sanitizeStr_eq_spec s)
  | .obj fields => congrArg JVal.obj (sanitizeFieldsAux fields)
  | .arr items => congrArg JVal.arr (sanitizeItemsAux items)
  | .num _ => rfl
  | .bool _ => rfl
  | .null => rfl

theorem sanitizeFieldsAux :
    (fs : List (String × JVal)) → sanitizeFields fs = sanitizeSpecFields fs
  | [] => rfl
  | (k, v) :: rest => by
      rw [sanitizeFields, sanitizeSpecFields, sanitizeAux v,
        sanitizeFieldsAux rest]

theorem sanitizeItemsAux :
    (items : List JVal) → sanitizeItems items = sanitizeSpecItems items
  | [] => rfl
  | v :: rest => by
      rw [sanitizeItems, sanitizeSpecItems, sanitizeAux v,
        sanitizeItemsAux rest]

end

mutual

theorem sanitizeIdemAux :
    (v : JVal) → sanitize_input (sanitize_input v) = sanitize_input v
  | .str s => congrArg JVal.str (sanitizeStr_idem s)
  | .obj fields => congrArg JVal.obj (sanitizeFieldsIdemAux fields)
  | .arr items => congrArg JVal.arr (sanitizeItemsIdemAux items)
  | .num _ => rfl
  | .bool _ => rfl
  | .null => rfl

theorem sanitizeFieldsIdemAux :
    (fs : List (String × JVal)) →
      sanitizeFields (sanitizeFields fs) = sanitizeFields fs
  | [] => rfl
  | (k, v) :: rest => by
      rw [sanitizeFields, sanitizeFields, sanitizeIdemAux v,
        sanitizeFieldsIdemAux rest]

theorem sanitizeItemsIdemAux :
    (items : List JVal) →
      sanitizeItems (sanitizeItems items) = sanitizeItems items
  | [] => rfl
  | v :: rest => by
      rw [sanitizeItems, sanitizeItems, sanitizeIdemAux v,
        sanitizeItemsIdemAux rest]

end

/-- C3: `sanitize_input` removes exactly the six dangerous characters
(angle brackets, double quote, single quote, ampersand, semicolon)
from every string value (recursing into nested mappings and sequences)
and trims leading/trailing whitespace from each string, preserving all
other characters, mapping keys and sequence order: on every input it
coincides with `sanitizeSpec`, the direct formalization of the wording
of the spec (a plain filter of exactly the dangerous characters followed by
a trim, mapped structurally over the value). -/
theorem sanitize_input_matches_spec (v : JVal) :
    sanitize_input v = sanitizeSpec v := sanitizeAux v

/-- C4: sanitization is idempotent: for every string, mapping or
sequence input (indeed every JSON value, nested structures included),
sanitizing twice equals sanitizing once. -/
theorem sanitize_input_idempotent (v : JVal) :
    sanitize_input (sanitize_input v) = sanitize_input v := sanitizeIdemAux v

/-- Every `runRemote` call issues exactly its one request, whatever the
oracle answers. -/
theorem runRemote_trace (oracle : Oracle) (action : String)
    (req : HttpRequest) : (runRemote oracle action req).1 = [req] := by
  unfold runRemote
  cases oracle req <;> rfl

/-- Sanitizing a params dict sanitizes the values pointwise: lookup
commutes with sanitization. -/
theorem jLookup_sanitizeFields (fs : List (String × JVal)) (key : String) :
    jLookup (sanitizeFields fs) key = (jLookup fs key).map sanitize_input := by
  induction fs with
  | nil => rfl
  | cons kv rest ih =>
      obtain ⟨k, v⟩ := kv
      rw [sanitizeFields, jLookup, jLookup]
      by_cases h : k = key
      · rw [if_pos h, if_pos h]
        rfl
      · rw [if_neg h, if_neg h, ih]

/-- Extract a top-level field from a response body dict. -/
def bodyField (r : Response) (key : String) : Option JVal :=
  match r.body with
  | .obj fields => jLookup fields key
  | _ => none

/-- How `async_handler` shapes a dispatcher outcome into a response:
200 on success, and on failure the status and body taken from the
`ServerlessError`. -/
def dispatchResponse (cfg : Config) (now : String) :
    Except SErr JVal → Response
  | .ok j => create_response cfg 200 j now
  | .error e => create_response cfg e.status_code (serverlessErrBody e) now

theorem validate_request_ok (fs : List (String × JVal)) (a : String)
    (hlk : jLookup fs "action" = some (.str a)) (hv : a ∈ validActions) :
    validate_request (.obj fs) = .ok () := by
  have hany : (validActions.any (fun s => jvalEqStr (.str a) s)) = true := by
    apply List.any_eq_true.mpr
    exact ⟨a, hv, by simp [jvalEqStr]⟩
  simp only [validate_request, pyContains, pyGetItem, hlk, Option.isSome_some,
    hany, if_true]

theorem asyncCore_dispatch (cfg : Config) (oracle : Oracle)
    (method : String) (fs : List (String × JVal)) (a : String)
    (hlk : jLookup fs "action" = some (.str a))
    (hv : a ∈ validActions) (hsan : sanitizeStr a = a) :
    asyncCore cfg oracle ⟨method, .ok (.obj fs)⟩ =
      ((handle_action cfg oracle a
          (sanitize_input ((jLookup fs "params").getD (.obj [])))).1,
       (handle_action cfg oracle a
          (sanitize_input ((jLookup fs "params").getD (.obj [])))).2.mapError
         HandlerErr.serverless) := by
  have hsa : sanitize_input (.str a) = .str a := by
    rw [sanitize_input, hsan]
  simp only [asyncCore, validate_request_ok fs a hlk hv, pyGetItem, pyDictGet,
    hlk, hsa]

theorem asyncHandler_dispatch (cfg : Config) (oracle : Oracle)
    (now method : String) (fs : List (String × JVal)) (a : String)
    (hm : method ≠ "OPTIONS")
    (hlk : jLookup fs "action" = some (.str a))
    (hv : a ∈ validActions) (hsan : sanitizeStr a = a) :
    asyncHandler cfg oracle now ⟨method, .ok (.obj fs)⟩ =
      ((handle_action cfg oracle a
          (sanitize_input ((jLookup fs "params").getD (.obj [])))).1,
       dispatchResponse cfg now
         (handle_action cfg oracle a
           (sanitize_input ((jLookup fs "params").getD (.obj [])))).2) := by
  unfold asyncHandler
  rw [if_neg hm, asyncCore_dispatch cfg oracle method fs a hlk hv hsan]
  cases hr : (handle_action cfg oracle a
      (sanitize_input ((jLookup fs "params").getD (.obj [])))).2 with
  | ok j => rfl
  | error e => rfl

theorem requireParam_some (a : String) (fs : List (String × JVal))
    (f : String) (w : JVal)
    (k : JVal → List HttpRequest × Except SErr JVal)
    (hw : jLookup fs f = some w) (ht : jTruthy w = true) :
    requireParam a (.obj fs) f k = k w := by
  simp [requireParam, paramsGet, hw, optTruthy, ht]

theorem requireParam_fail (a : String) (params : JVal) (f : String)
    (k : JVal → List HttpRequest × Except SErr JVal)
    (h : paramsGet params f = .ok none ∨
      paramsGet params f = .ok (some (.str ""))) :
    requireParam a params f k =
      ([], .error ⟨f ++ " is required", 400, .obj []⟩) := by
  rcases h with h | h <;> simp [requireParam, h, optTruthy, jTruthy]

theorem paramsGet_ok (params : JVal) (f : String) (v : Option JVal)
    (h : paramsGet params f = .ok v) :
    ∃ fs, params = .obj fs ∧ jLookup fs f = v := by
  cases params <;> simp [paramsGet] at h
  case obj fields => exact ⟨fields, rfl, h⟩

/-- C1: for each of the 7 core actions, given required parameters
present and non-empty, dispatch issues exactly one outbound call whose
method and path match the action table, with path parameters
substituted from the given params. -/
theorem dispatch_matches_action_table (cfg : Config) (oracle : Oracle)
    (params : JVal) (fs : List (String × JVal)) (w u : String)
    (hw : jLookup fs "watch_id" = some (.str w)) (hw0 : w ≠ "")
    (hu : jLookup fs "url" = some (.str u)) (hu0 : u ≠ "") :
    (handle_action cfg oracle "list_watches" params).1 =
      [⟨.GET, "/api/v1/watch", none⟩] ∧
    (handle_action cfg oracle "get_watch" (.obj fs)).1 =
      [⟨.GET, "/api/v1/watch/" ++ w, none⟩] ∧
    (∃ body, (handle_action cfg oracle "create_watch" (.obj fs)).1 =
      [⟨.POST, "/api/v1/watch", some body⟩]) ∧
    (handle_action cfg oracle "delete_watch" (.obj fs)).1 =
      [⟨.DELETE, "/api/v1/watch/" ++ w, none⟩] ∧
    (handle_action cfg oracle "trigger_check" (.obj fs)).1 =
      [⟨.GET, "/api/v1/watch/" ++ w ++ "/trigger", none⟩] ∧
    (handle_action cfg oracle "get_history" (.obj fs)).1 =
      [⟨.GET, "/api/v1/watch/" ++ w ++ "/history", none⟩] ∧
    (handle_action cfg oracle "system_info" params).1 =
      [⟨.GET, "/api/v1/systeminfo", none⟩] := by
  have hwt : jTruthy (.str w) = true := by simp [jTruthy, hw0]
  have hut : jTruthy (.str u) = true := by simp [jTruthy, hu0]
  refine ⟨?_, ?_, ?_, ?_, ?_, ?_, ?_⟩
  · exact runRemote_trace oracle "list_watches" listWatchesReq
  · have e : handle_action cfg oracle "get_watch" (.obj fs) =
        requireParam "get_watch" (.obj fs) "watch_id"
          (fun v => runRemote oracle "get_watch" (getWatchReq v)) := rfl
    rw [e, requireParam_some "get_watch" fs "watch_id" (.str w) _ hw hwt,
      runRemote_trace]
    rfl
  · refine ⟨createWatchBody (.str u) (jLookup fs "tag"), ?_⟩
    have e : handle_action cfg oracle "create_watch" (.obj fs) =
        (if optTruthy (jLookup fs "url") then
          runRemote oracle "create_watch"
            (createWatchReq ((jLookup fs "url").getD .null) (jLookup fs "tag"))
        else ([], .error ⟨"url is required", 400, .obj []⟩)) := rfl
    rw [e, hu]
    simp only [optTruthy, hut, if_true, Option.getD_some]
    rw [runRemote_trace]
    rfl
  · have e : handle_action cfg oracle "delete_watch" (.obj fs) =
        requireParam "delete_watch" (.obj fs) "watch_id"
          (fun v => runRemote oracle "delete_watch" (deleteWatchReq v)) := rfl
    rw [e, requireParam_some "delete_watch" fs "watch_id" (.str w) _ hw hwt,
      runRemote_trace]
    rfl
  · have e : handle_action cfg oracle "trigger_check" (.obj fs) =
        requireParam "trigger_check" (.obj fs) "watch_id"
          (fun v => runRemote oracle "trigger_check" (triggerCheckReq v)) := rfl
    rw [e, requireParam_some "trigger_check" fs "watch_id" (.str w) _ hw hwt,
      runRemote_trace]
    rfl
  · have e : handle_action cfg oracle "get_history" (.obj fs) =
        requireParam "get_history" (.obj fs) "watch_id"
          (fun v => runRemote oracle "get_history" (getHistoryReq v)) := rfl
    rw [e, requireParam_some "get_history" fs "watch_id" (.str w) _ hw hwt,
      runRemote_trace]
    rfl
  · exact runRemote_trace oracle "system_info" systemInfoReq

/-- A concrete configuration (debug off). -/
def cfgA : Config := ⟨"http://localhost:5000", "secret", false, true, ["*"]⟩

/-- A remote that answers every request with JSON `null`. -/
def okOracle : Oracle := fun _ => .ok .null

/-- A remote whose every call times out. -/
def timeoutOracle : Oracle := fun _ => .error ⟨"ReadTimeout", "timed out"⟩

/-- Witness for C1 at concrete inputs: params
`{"watch_id": "abc", "url": "http://x"}`. -/
theorem dispatch_matches_action_table_witness :
    (handle_action cfgA okOracle "list_watches" (.obj [])).1 =
      [⟨.GET, "/api/v1/watch", none⟩] ∧
    (handle_action cfgA okOracle "get_watch"
        (.obj [("watch_id", .str "abc"), ("url", .str "http://x")])).1 =
      [⟨.GET, "/api/v1/watch/" ++ "abc", none⟩] ∧
    (∃ body, (handle_action cfgA okOracle "create_watch"
        (.obj [("watch_id", .str "abc"), ("url", .str "http://x")])).1 =
      [⟨.POST, "/api/v1/watch", some body⟩]) ∧
    (handle_action cfgA okOracle "delete_watch"
        (.obj [("watch_id", .str "abc"), ("url", .str "http://x")])).1 =
      [⟨.DELETE, "/api/v1/watch/" ++ "abc", none⟩] ∧
    (handle_action cfgA okOracle "trigger_check"
        (.obj [("watch_id", .str "abc"), ("url", .str "http://x")])).1 =
      [⟨.GET, "/api/v1/watch/" ++ "abc" ++ "/trigger", none⟩] ∧
    (handle_action cfgA okOracle "get_history"
        (.obj [("watch_id", .str "abc"), ("url", .str "http://x")])).1 =
      [⟨.GET, "/api/v1/watch/" ++ "abc" ++ "/history", none⟩] ∧
    (handle_action cfgA okOracle "system_info" (.obj [])).1 =
      [⟨.GET, "/api/v1/systeminfo", none⟩] :=
  dispatch_matches_action_table cfgA okOracle (.obj [])
    [("watch_id", .str "abc"), ("url", .str "http://x")] "abc" "http://x"
    rfl (by decide) rfl (by decide)

/-- C5: every action requiring `watch_id` or `url` fails fast when that
field is absent or empty, with a missing-parameter error naming the
field and no outbound call, on both front ends; in particular
`create_watch` with empty params fails naming `url` before any remote
call. -/
theorem missing_required_param_fails_fast (cfg : Config) (oracle : Oracle)
    (params : JVal) (args : List (String × JVal)) :
    (∀ a ∈ (["get_watch", "delete_watch", "trigger_check",
        "get_history"] : List String),
      (paramsGet params "watch_id" = .ok none ∨
        paramsGet params "watch_id" = .ok (some (.str ""))) →
      handle_action cfg oracle a params =
        ([], .error ⟨"watch_id is required", 400, .obj []⟩)) ∧
    ((paramsGet params "url" = .ok none ∨
        paramsGet params "url" = .ok (some (.str ""))) →
      handle_action cfg oracle "create_watch" params =
        ([], .error ⟨"url is required", 400, .obj []⟩)) ∧
    (handle_action cfg oracle "create_watch" (.obj []) =
      ([], .error ⟨"url is required", 400, .obj []⟩)) ∧
    (∀ a ∈ (["get_watch", "delete_watch", "trigger_check",
        "get_history"] : List String),
      (jLookup args "watch_id" = none ∨
        jLookup args "watch_id" = some (.str "")) →
      call_tool oracle a args = ([], ["Error: watch_id is required"])) ∧
    ((jLookup args "url" = none ∨ jLookup args "url" = some (.str "")) →
      call_tool oracle "create_watch" args =
        ([], ["Error: url is required"])) := by
  have fix : ("watch_id" : String) ++ " is required" = "watch_id is required" :=
    rfl
  refine ⟨?_, ?_, ?_, ?_, ?_⟩
  · intro a ha h
    simp only [List.mem_cons, List.mem_singleton] at ha
    rcases ha with rfl | rfl | rfl | rfl | h0
    · have e : handle_action cfg oracle "get_watch" params =
          requireParam "get_watch" params "watch_id"
            (fun v => runRemote oracle "get_watch" (getWatchReq v)) := rfl
      rw [e, requireParam_fail "get_watch" params "watch_id" _ h, fix]
    · have e : handle_action cfg oracle "delete_watch" params =
          requireParam "delete_watch" params "watch_id"
            (fun v => runRemote oracle "delete_watch" (deleteWatchReq v)) := rfl
      rw [e, requireParam_fail "delete_watch" params "watch_id" _ h, fix]
    · have e : handle_action cfg oracle "trigger_check" params =
          requireParam "trigger_check" params "watch_id"
            (fun v => runRemote oracle "trigger_check" (triggerCheckReq v)) := rfl
      rw [e, requireParam_fail "trigger_check" params "watch_id" _ h, fix]
    · have e : handle_action cfg oracle "get_history" params =
          requireParam "get_history" params "watch_id"
            (fun v => runRemote oracle "get_history" (getHistoryReq v)) := rfl
      rw [e, requireParam_fail "get_history" params "watch_id" _ h, fix]
    · cases h0
  · intro h
    rcases h with h | h
    · obtain ⟨fs, rfl, hlk⟩ := paramsGet_ok params "url" _ h
      have e : handle_action cfg oracle "create_watch" (.obj fs) =
          (if optTruthy (jLookup fs "url") then
            runRemote oracle "create_watch"
              (createWatchReq ((jLookup fs "url").getD .null)
                (jLookup fs "tag"))
          else ([], .error ⟨"url is required", 400, .obj []⟩)) := rfl
      rw [e, hlk]
      simp [optTruthy]
    · obtain ⟨fs, rfl, hlk⟩ := paramsGet_ok params "url" _ h
      have e : handle_action cfg oracle "create_watch" (.obj fs) =
          (if optTruthy (jLookup fs "url") then
            runRemote oracle "create_watch"
              (createWatchReq ((jLookup fs "url").getD .null)
                (jLookup fs "tag"))
          else ([], .error ⟨"url is required", 400, .obj []⟩)) := rfl
      rw [e, hlk]
      simp [optTruthy, jTruthy]
  · rfl
  · intro a ha h
    simp only [List.mem_cons, List.mem_singleton] at ha
    rcases ha with rfl | rfl | rfl | rfl | h0
    · have e : call_tool oracle "get_watch" args =
          toolRequire args "watch_id"
            (fun v => toolText oracle (getWatchReq v)) := rfl
      rw [e]
      rcases h with h | h <;> simp [toolRequire, h, optTruthy, jTruthy]
    · have e : call_tool oracle "delete_watch" args =
          toolRequire args "watch_id"
            (fun v => toolText oracle (deleteWatchReq v)) := rfl
      rw [e]
      rcases h with h | h <;> simp [toolRequire, h, optTruthy, jTruthy]
    · have e : call_tool oracle "trigger_check" args =
          toolRequire args "watch_id"
            (fun v => toolText oracle (triggerCheckReq v)) := rfl
      rw [e]
      rcases h with h | h <;> simp [toolRequire, h, optTruthy, jTruthy]
    · have e : call_tool oracle "get_history" args =
          toolRequire args "watch_id"
            (fun v => toolText oracle (getHistoryReq v)) := rfl
      rw [e]
      rcases h with h | h <;> simp [toolRequire, h, optTruthy, jTruthy]
    · cases h0
  · intro h
    have e : call_tool oracle "create_watch" args =
        (if optTruthy (jLookup args "url") then
          toolText oracle
            (createWatchReq ((jLookup args "url").getD .null)
              (jLookup args "tag"))
        else ([], ["Error: url is required"])) := rfl
    rw [e]
    rcases h with h | h <;> rw [h] <;> simp [optTruthy, jTruthy]

/-- Witness for C5 at concrete inputs: empty params dict for the HTTP
dispatcher, empty-string `watch_id` for the tool front end. -/
theorem missing_required_param_fails_fast_witness :
    handle_action cfgA okOracle "get_watch" (.obj []) =
      ([], .error ⟨"watch_id is required", 400, .obj []⟩) ∧
    handle_action cfgA okOracle "create_watch" (.obj []) =
      ([], .error ⟨"url is required", 400, .obj []⟩) ∧
    call_tool okOracle "get_history" [("watch_id", .str "")] =
      ([], ["Error: watch_id is required"]) ∧
    call_tool okOracle "create_watch" [("watch_id", .str "")] =
      ([], ["Error: url is required"]) := by
  have h := missing_required_param_fails_fast cfgA okOracle (.obj [])
    [("watch_id", .str "")]
  exact ⟨h.1 "get_watch" (by decide) (Or.inl rfl), h.2.2.1,
    h.2.2.2.1 "get_history" (by decide) (Or.inr rfl),
    h.2.2.2.2 (Or.inl rfl)⟩

/-- C6: a `health_check` request issues no outbound remote call, and
the `data.api_key_configured` field of the response is true iff the
configured API key is a non-empty string. -/
theorem health_check_no_call_and_key_flag (cfg : Config) (oracle : Oracle)
    (now method : String) (fs : List (String × JVal))
    (hm : method ≠ "OPTIONS")
    (hlk : jLookup fs "action" = some (.str "health_check")) :
    (asyncHandler cfg oracle now ⟨method, .ok (.obj fs)⟩).1 = [] ∧
    ∃ dataFields,
      bodyField (asyncHandler cfg oracle now ⟨method, .ok (.obj fs)⟩).2
        "data" = some (.obj dataFields) ∧
      (jLookup dataFields "api_key_configured" = some (.bool true) ↔
        cfg.apiKey ≠ "") := by
  have hd := asyncHandler_dispatch cfg oracle now method fs "health_check"
    hm hlk (by decide) rfl
  rw [hd]
  have e : handle_action cfg oracle "health_check"
      (sanitize_input ((jLookup fs "params").getD (.obj []))) =
      ([], .ok (.obj [("success", .bool true), ("status", .str "healthy"),
        ("data", .obj [("changedetection_url", .str cfg.baseUrl),
          ("api_key_configured", .bool (cfg.apiKey != ""))])])) := rfl
  rw [e]
  refine ⟨rfl, ⟨[("changedetection_url", .str cfg.baseUrl),
    ("api_key_configured", .bool (cfg.apiKey != ""))], rfl, ?_⟩⟩
  have hjl : jLookup [("changedetection_url", .str cfg.baseUrl),
      ("api_key_configured", .bool (cfg.apiKey != ""))]
      "api_key_configured" = some (.bool (cfg.apiKey != "")) := rfl
  rw [hjl]
  simp [bne_iff_ne]

/-- Witness for C6 at a concrete request with a non-empty key. -/
theorem health_check_no_call_and_key_flag_witness :
    (asyncHandler cfgA okOracle "T"
        ⟨"POST", .ok (.obj [("action", .str "health_check")])⟩).1 = [] ∧
    ∃ dataFields,
      bodyField (asyncHandler cfgA okOracle "T"
          ⟨"POST", .ok (.obj [("action", .str "health_check")])⟩).2
        "data" = some (.obj dataFields) ∧
      (jLookup dataFields "api_key_configured" = some (.bool true) ↔
        cfgA.apiKey ≠ "") :=
  health_check_no_call_and_key_flag cfgA okOracle "T" "POST"
    [("action", .str "health_check")] (by decide) rfl

/-- Shared shape of a 400 missing-parameter response from the HTTP
front end: if the dispatcher rejects the sanitized params with a
400 `ServerlessError` and empty details, the whole handler returns
exactly that error response and issues no outbound call. -/
theorem asyncHandler_param_missing_shape (cfg : Config) (oracle : Oracle)
    (now method a : String) (p : JVal) (msg : String)
    (hm : method ≠ "OPTIONS") (hva : a ∈ validActions)
    (hsan : sanitizeStr a = a)
    (hact : handle_action cfg oracle a (sanitize_input p) =
      ([], .error ⟨msg, 400, .obj []⟩)) :
    asyncHandler cfg oracle now
        ⟨method, .ok (.obj [("action", .str a), ("params", p)])⟩ =
      ([], create_response cfg 400
        (serverlessErrBody ⟨msg, 400, .obj []⟩) now) := by
  have hd := asyncHandler_dispatch cfg oracle now method
    [("action", .str a), ("params", p)] a hm rfl hva hsan
  rw [hd]
  have hp : (jLookup [("action", .str a), ("params", p)] "params").getD
      (.obj []) = p := rfl
  rw [hp, hact]
  rfl

/-- C10: in the HTTP front end, a required parameter whose value
sanitizes to the empty string is treated exactly like an absent
parameter: identical response to the absent case, status 400 with the
missing-parameter error naming the field, and no outbound call. -/
theorem sanitized_empty_param_like_absent (cfg : Config) (oracle : Oracle)
    (now method v : String)
    (hm : method ≠ "OPTIONS") (hsv : sanitizeStr v = "") :
    (∀ a ∈ (["get_watch", "delete_watch", "trigger_check",
        "get_history"] : List String),
      asyncHandler cfg oracle now ⟨method, .ok (.obj [("action", .str a),
          ("params", .obj [("watch_id", .str v)])])⟩ =
        asyncHandler cfg oracle now ⟨method, .ok (.obj [("action", .str a),
          ("params", .obj [])])⟩ ∧
      (asyncHandler cfg oracle now ⟨method, .ok (.obj [("action", .str a),
          ("params", .obj [("watch_id", .str v)])])⟩).1 = [] ∧
      (asyncHandler cfg oracle now ⟨method, .ok (.obj [("action", .str a),
          ("params", .obj [("watch_id", .str v)])])⟩).2.statusCode = 400 ∧
      bodyField (asyncHandler cfg oracle now ⟨method, .ok (.obj
          [("action", .str a),
           ("params", .obj [("watch_id", .str v)])])⟩).2 "error" =
        some (.str "watch_id is required")) ∧
    (asyncHandler cfg oracle now ⟨method, .ok (.obj
        [("action", .str "create_watch"),
         ("params", .obj [("url", .str v)])])⟩ =
      asyncHandler cfg oracle now ⟨method, .ok (.obj
        [("action", .str "create_watch"), ("params", .obj [])])⟩ ∧
    (asyncHandler cfg oracle now ⟨method, .ok (.obj
        [("action", .str "create_watch"),
         ("params", .obj [("url", .str v)])])⟩).1 = [] ∧
    (asyncHandler cfg oracle now ⟨method, .ok (.obj
        [("action", .str "create_watch"),
         ("params", .obj [("url", .str v)])])⟩).2.statusCode = 400 ∧
    bodyField (asyncHandler cfg oracle now ⟨method, .ok (.obj
        [("action", .str "create_watch"),
         ("params", .obj [("url", .str v)])])⟩).2 "error" =
      some (.str "url is required")) := by
  have hPw : sanitize_input (.obj [("watch_id", .str v)]) =
      .obj [("watch_id", .str "")] := by
    simp only [sanitize_input, sanitizeFields, hsv]
  have hPu : sanitize_input (.obj [("url", .str v)]) =
      .obj [("url", .str "")] := by
    simp only [sanitize_input, sanitizeFields, hsv]
  constructor
  · intro a ha
    have main : ∀ b : String, b ∈ validActions → sanitizeStr b = b →
        handle_action cfg oracle b (.obj [("watch_id", .str "")]) =
          ([], .error ⟨"watch_id is required", 400, .obj []⟩) →
        handle_action cfg oracle b (.obj []) =
          ([], .error ⟨"watch_id is required", 400, .obj []⟩) →
        (asyncHandler cfg oracle now ⟨method, .ok (.obj [("action", .str b),
            ("params", .obj [("watch_id", .str v)])])⟩ =
          asyncHandler cfg oracle now ⟨method, .ok (.obj [("action", .str b),
            ("params", .obj [])])⟩ ∧
        (asyncHandler cfg oracle now ⟨method, .ok (.obj [("action", .str b),
            ("params", .obj [("watch_id", .str v)])])⟩).1 = [] ∧
        (asyncHandler cfg oracle now ⟨method, .ok (.obj [("action", .str b),
            ("params", .obj [("watch_id", .str v)])])⟩).2.statusCode = 400 ∧
        bodyField (asyncHandler cfg oracle now ⟨method, .ok (.obj
            [("action", .str b),
             ("params", .obj [("watch_id", .str v)])])⟩).2 "error" =
          some (.str "watch_id is required")) := by
      intro b hvb hsb hact1 hact2
      have h1 := asyncHandler_param_missing_shape cfg oracle now method b
        (.obj [("watch_id", .str v)]) "watch_id is required" hm hvb hsb
        (by rw [hPw]; exact hact1)
      have h2 := asyncHandler_param_missing_shape cfg oracle now method b
        (.obj []) "watch_id is required" hm hvb hsb (by exact hact2)
      rw [h1, h2]
      exact ⟨rfl, rfl, rfl, rfl⟩
    fin_cases ha
    · exact main "get_watch" (by decide) rfl rfl rfl
    · exact main "delete_watch" (by decide) rfl rfl rfl
    · exact main "trigger_check" (by decide) rfl rfl rfl
    · exact main "get_history" (by decide) rfl rfl rfl
  · have h1 := asyncHandler_param_missing_shape cfg oracle now method
      "create_watch" (.obj [("url", .str v)]) "url is required" hm
      (by decide) rfl (by rw [hPu]; rfl)
    have h2 := asyncHandler_param_missing_shape cfg oracle now method
      "create_watch" (.obj []) "url is required" hm (by decide) rfl rfl
    rw [h1, h2]
    exact ⟨rfl, rfl, rfl, rfl⟩

/-- Witness for C10 at the concrete input `watch_id = "<>"` (sanitizes
to the empty string) for `get_watch`. -/
theorem sanitized_empty_param_like_absent_witness :
    asyncHandler cfgA okOracle "T" ⟨"POST", .ok (.obj
        [("action", .str "get_watch"),
         ("params", .obj [("watch_id", .str "<>")])])⟩ =
      asyncHandler cfgA okOracle "T" ⟨"POST", .ok (.obj
        [("action", .str "get_watch"), ("params", .obj [])])⟩ ∧
    (asyncHandler cfgA okOracle "T" ⟨"POST", .ok (.obj
        [("action", .str "get_watch"),
         ("params", .obj [("watch_id", .str "<>")])])⟩).1 = [] ∧
    (asyncHandler cfgA okOracle "T" ⟨"POST", .ok (.obj
        [("action", .str "get_watch"),
         ("params", .obj [("watch_id", .str "<>")])])⟩).2.statusCode = 400 ∧
    bodyField (asyncHandler cfgA okOracle "T" ⟨"POST", .ok (.obj
        [("action", .str "get_watch"),
         ("params", .obj [("watch_id", .str "<>")])])⟩).2 "error" =
      some (.str "watch_id is required") :=
  (sanitized_empty_param_like_absent cfgA okOracle "T" "POST" "<>"
    (by decide) rfl).1 "get_watch" (by decide)

theorem runRemote_error (oracle : Oracle) (action : String)
    (req : HttpRequest) (ex : PyExc) (h : oracle req = .error ex) :
    runRemote oracle action req = ([req], .error (internalErr action ex)) := by
  simp [runRemote, h]

/-- If the dispatcher issued one request and the generic `except`
clause converted the client exception, the whole handler returns the
500 internal-error response built from it. -/
theorem asyncHandler_remote_error_shape (cfg : Config) (oracle : Oracle)
    (now method a : String) (p : JVal) (ex : PyExc) (req : HttpRequest)
    (hm : method ≠ "OPTIONS") (hva : a ∈ validActions)
    (hsan : sanitizeStr a = a)
    (hact : handle_action cfg oracle a (sanitize_input p) =
      ([req], .error (internalErr a ex))) :
    asyncHandler cfg oracle now
        ⟨method, .ok (.obj [("action", .str a), ("params", p)])⟩ =
      ([req], create_response cfg 500
        (serverlessErrBody (internalErr a ex)) now) := by
  have hd := asyncHandler_dispatch cfg oracle now method
    [("action", .str a), ("params", p)] a hm rfl hva hsan
  rw [hd]
  have hp : (jLookup [("action", .str a), ("params", p)] "params").getD
      (.obj []) = p := rfl
  rw [hp, hact]
  rfl

/-- C2 (amended): when the remote call of any of the 7 core actions
fails (timeout or other transport failure), the front end returns
status 500 with `success: false` — but the error message is
`Internal server error: ` followed by the internal exception text,
regardless of the debug flag. -/
theorem remote_failure_includes_exception_text (cfg : Config)
    (oracle : Oracle) (now method : String) (ex : PyExc)
    (fs : List (String × JVal)) (a w u : String)
    (hm : method ≠ "OPTIONS")
    (ho : ∀ req, oracle req = .error ex)
    (ha : a ∈ (["list_watches", "get_watch", "create_watch", "delete_watch",
        "trigger_check", "get_history", "system_info"] : List String))
    (hw : jLookup fs "watch_id" = some (.str w)) (hw0 : sanitizeStr w ≠ "")
    (hu : jLookup fs "url" = some (.str u)) (hu0 : sanitizeStr u ≠ "") :
    (asyncHandler cfg oracle now ⟨method, .ok (.obj
        [("action", .str a), ("params", .obj fs)])⟩).1.length = 1 ∧
    (asyncHandler cfg oracle now ⟨method, .ok (.obj
        [("action", .str a), ("params", .obj fs)])⟩).2.statusCode = 500 ∧
    bodyField (asyncHandler cfg oracle now ⟨method, .ok (.obj
        [("action", .str a), ("params", .obj fs)])⟩).2 "success" =
      some (.bool false) ∧
    bodyField (asyncHandler cfg oracle now ⟨method, .ok (.obj
        [("action", .str a), ("params", .obj fs)])⟩).2 "error" =
      some (.str ("Internal server error: " ++ ex.msg)) := by
  have hlw : jLookup (sanitizeFields fs) "watch_id" =
      some (.str (sanitizeStr w)) := by
    rw [jLookup_sanitizeFields, hw]; rfl
  have hlu : jLookup (sanitizeFields fs) "url" =
      some (.str (sanitizeStr u)) := by
    rw [jLookup_sanitizeFields, hu]; rfl
  have main : ∀ b : String, b ∈ validActions → sanitizeStr b = b →
      ∀ req, handle_action cfg oracle b (sanitize_input (.obj fs)) =
        ([req], .error (internalErr b ex)) →
      (asyncHandler cfg oracle now ⟨method, .ok (.obj
          [("action", .str b), ("params", .obj fs)])⟩).1.length = 1 ∧
      (asyncHandler cfg oracle now ⟨method, .ok (.obj
          [("action", .str b), ("params", .obj fs)])⟩).2.statusCode = 500 ∧
      bodyField (asyncHandler cfg oracle now ⟨method, .ok (.obj
          [("action", .str b), ("params", .obj fs)])⟩).2 "success" =
        some (.bool false) ∧
      bodyField (asyncHandler cfg oracle now ⟨method, .ok (.obj
          [("action", .str b), ("params", .obj fs)])⟩).2 "error" =
        some (.str ("Internal server error: " ++ ex.msg)) := by
    intro b hvb hsb req hact
    have h1 := asyncHandler_remote_error_shape cfg oracle now method b
      (.obj fs) ex req hm hvb hsb hact
    rw [h1]
    exact ⟨rfl, rfl, rfl, rfl⟩
  fin_cases ha
  · exact main "list_watches" (by decide) rfl listWatchesReq
      (runRemote_error oracle "list_watches" listWatchesReq ex
        (ho listWatchesReq))
  · refine main "get_watch" (by decide) rfl
      (getWatchReq (.str (sanitizeStr w))) ?_
    have e : handle_action cfg oracle "get_watch" (sanitize_input (.obj fs)) =
        requireParam "get_watch" (.obj (sanitizeFields fs)) "watch_id"
          (fun x => runRemote oracle "get_watch" (getWatchReq x)) := rfl
    rw [e, requireParam_some "get_watch" (sanitizeFields fs) "watch_id"
      (.str (sanitizeStr w)) _ hlw (by simp [jTruthy, hw0])]
    exact runRemote_error oracle "get_watch" _ ex (ho _)
  · refine main "create_watch" (by decide) rfl
      (createWatchReq (.str (sanitizeStr u))
        (jLookup (sanitizeFields fs) "tag")) ?_
    have e : handle_action cfg oracle "create_watch"
        (sanitize_input (.obj fs)) =
        (if optTruthy (jLookup (sanitizeFields fs) "url") then
          runRemote oracle "create_watch"
            (createWatchReq ((jLookup (sanitizeFields fs) "url").getD .null)
              (jLookup (sanitizeFields fs) "tag"))
        else ([], .error ⟨"url is required", 400, .obj []⟩)) := rfl
    have ht : jTruthy (.str (sanitizeStr u)) = true := by
      simp [jTruthy, hu0]
    rw [e, hlu]
    simp only [optTruthy, ht, if_true, Option.getD_some]
    exact runRemote_error oracle "create_watch" _ ex (ho _)
  · refine main "delete_watch" (by decide) rfl
      (deleteWatchReq (.str (sanitizeStr w))) ?_
    have e : handle_action cfg oracle "delete_watch"
        (sanitize_input (.obj fs)) =
        requireParam "delete_watch" (.obj (sanitizeFields fs)) "watch_id"
          (fun x => runRemote oracle "delete_watch" (deleteWatchReq x)) := rfl
    rw [e, requireParam_some "delete_watch" (sanitizeFields fs) "watch_id"
      (.str (sanitizeStr w)) _ hlw (by simp [jTruthy, hw0])]
    exact runRemote_error oracle "delete_watch" _ ex (ho _)
  · refine main "trigger_check" (by decide) rfl
      (triggerCheckReq (.str (sanitizeStr w))) ?_
    have e : handle_action cfg oracle "trigger_check"
        (sanitize_input (.obj fs)) =
        requireParam "trigger_check" (.obj (sanitizeFields fs)) "watch_id"
          (fun x => runRemote oracle "trigger_check" (triggerCheckReq x)) := rfl
    rw [e, requireParam_some "trigger_check" (sanitizeFields fs) "watch_id"
      (.str (sanitizeStr w)) _ hlw (by simp [jTruthy, hw0])]
    exact runRemote_error oracle "trigger_check" _ ex (ho _)
  · refine main "get_history" (by decide) rfl
      (getHistoryReq (.str (sanitizeStr w))) ?_
    have e : handle_action cfg oracle "get_history"
        (sanitize_input (.obj fs)) =
        requireParam "get_history" (.obj (sanitizeFields fs)) "watch_id"
          (fun x => runRemote oracle "get_history" (getHistoryReq x)) := rfl
    rw [e, requireParam_some "get_history" (sanitizeFields fs) "watch_id"
      (.str (sanitizeStr w)) _ hlw (by simp [jTruthy, hw0])]
    exact runRemote_error oracle "get_history" _ ex (ho _)
  · exact main "system_info" (by decide) rfl systemInfoReq
      (runRemote_error oracle "system_info" systemInfoReq ex
        (ho systemInfoReq))

/-- Witness for the amended C2 at a concrete timed-out `get_watch`. -/
theorem remote_failure_includes_exception_text_witness :
    (asyncHandler cfgA timeoutOracle "T" ⟨"POST", .ok (.obj
        [("action", .str "get_watch"),
         ("params", .obj [("watch_id", .str "abc"),
           ("url", .str "http://x")])])⟩).1.length = 1 ∧
    (asyncHandler cfgA timeoutOracle "T" ⟨"POST", .ok (.obj
        [("action", .str "get_watch"),
         ("params", .obj [("watch_id", .str "abc"),
           ("url", .str "http://x")])])⟩).2.statusCode = 500 ∧
    bodyField (asyncHandler cfgA timeoutOracle "T" ⟨"POST", .ok (.obj
        [("action", .str "get_watch"),
         ("params", .obj [("watch_id", .str "abc"),
           ("url", .str "http://x")])])⟩).2 "success" =
      some (.bool false) ∧
    bodyField (asyncHandler cfgA timeoutOracle "T" ⟨"POST", .ok (.obj
        [("action", .str "get_watch"),
         ("params", .obj [("watch_id", .str "abc"),
           ("url", .str "http://x")])])⟩).2 "error" =
      some (.str ("Internal server error: " ++
        (⟨"ReadTimeout", "timed out"⟩ : PyExc).msg)) :=
  remote_failure_includes_exception_text cfgA timeoutOracle "T" "POST"
    ⟨"ReadTimeout", "timed out"⟩
    [("watch_id", .str "abc"), ("url", .str "http://x")]
    "get_watch" "abc" "http://x" (by decide) (fun _ => rfl) (by decide)
    rfl (by decide) rfl (by decide)

/-- Counterexample to C2 as stated: with the debug flag off, a remote
timeout on `system_info` produces a 500 whose error message contains
the internal exception text `timed out` — it is not omitted. -/
theorem remote_timeout_text_not_omitted :
    cfgA.debug = false ∧
    (asyncHandler cfgA timeoutOracle "T" ⟨"POST", .ok (.obj
        [("action", .str "system_info"), ("params", .obj [])])⟩).2.statusCode
      = 500 ∧
    bodyField (asyncHandler cfgA timeoutOracle "T" ⟨"POST", .ok (.obj
        [("action", .str "system_info"), ("params", .obj [])])⟩).2 "error" =
      some (.str "Internal server error: timed out") ∧
    "timed out".data <:+: "Internal server error: timed out".data :=
  ⟨rfl, rfl, rfl, by decide⟩

/-- C7 (amended): the `create_watch` JSON body always contains `url`;
it contains `tag` iff the provided tag value is truthy — a tag provided
with a falsy value (such as the empty string) is omitted. -/
theorem create_watch_body_tag_iff_truthy (cfg : Config) (oracle : Oracle)
    (params : JVal) (url : JVal) (tagOpt : Option JVal)
    (hu : paramsGet params "url" = .ok (some url))
    (hut : jTruthy url = true)
    (ht : paramsGet params "tag" = .ok tagOpt) :
    ∃ bodyFields,
      (handle_action cfg oracle "create_watch" params).1 =
        [⟨.POST, "/api/v1/watch", some (.obj bodyFields)⟩] ∧
      jLookup bodyFields "url" = some url ∧
      ((∃ t, jLookup bodyFields "tag" = some t) ↔ optTruthy tagOpt = true) ∧
      (∀ t, tagOpt = some t → jTruthy t = true →
        jLookup bodyFields "tag" = some t) := by
  obtain ⟨fs, rfl, hlk⟩ := paramsGet_ok params "url" _ hu
  have hlkt : jLookup fs "tag" = tagOpt := by
    simpa [paramsGet] using ht
  have e : handle_action cfg oracle "create_watch" (.obj fs) =
      (if optTruthy (jLookup fs "url") then
        runRemote oracle "create_watch"
          (createWatchReq ((jLookup fs "url").getD .null) (jLookup fs "tag"))
      else ([], .error ⟨"url is required", 400, .obj []⟩)) := rfl
  have hcond : optTruthy (some url) = true := by simp [optTruthy, hut]
  rw [e, hlk, hlkt, if_pos hcond]
  simp only [Option.getD_some]
  cases hto : optTruthy tagOpt with
  | true =>
      refine ⟨[("url", url), ("tag", tagOpt.getD .null)], ?_, rfl, ?_, ?_⟩
      · rw [runRemote_trace]
        simp [createWatchReq, createWatchBody, hto]
      · constructor
        · intro _
          rfl
        · intro _
          exact ⟨tagOpt.getD .null, rfl⟩
      · intro t htEq _
        subst htEq
        rfl
  | false =>
      refine ⟨[("url", url)], ?_, rfl, ?_, ?_⟩
      · rw [runRemote_trace]
        simp [createWatchReq, createWatchBody, hto]
      · constructor
        · intro hex
          obtain ⟨t, htl⟩ := hex
          cases htl
        · intro hcontra
          exact absurd hcontra (by decide)
      · intro t htEq htt
        rw [htEq] at hto
        simp [optTruthy, htt] at hto

/-- Witness for the amended C7 at a concrete truthy tag. -/
theorem create_watch_body_tag_iff_truthy_witness :
    ∃ bodyFields,
      (handle_action cfgA okOracle "create_watch"
          (.obj [("url", .str "http://x"), ("tag", .str "news")])).1 =
        [⟨.POST, "/api/v1/watch", some (.obj bodyFields)⟩] ∧
      jLookup bodyFields "url" = some (.str "http://x") ∧
      ((∃ t, jLookup bodyFields "tag" = some t) ↔
        optTruthy (some (.str "news")) = true) ∧
      (∀ t, some (.str "news") = some t → jTruthy t = true →
        jLookup bodyFields "tag" = some t) :=
  create_watch_body_tag_iff_truthy cfgA okOracle
    (.obj [("url", .str "http://x"), ("tag", .str "news")])
    (.str "http://x") (some (.str "news")) rfl (by decide) rfl

/-- Counterexample to C7 as stated: a tag provided as the empty string
(`{"url": "http://x", "tag": ""}`) is present in the params mapping but
the JSON body sent to the remote service has no `tag` field. -/
theorem create_watch_empty_tag_dropped :
    jLookup [("url", .str "http://x"), ("tag", .str "")] "tag" =
      some (.str "") ∧
    (handle_action cfgA okOracle "create_watch"
        (.obj [("url", .str "http://x"), ("tag", .str "")])).1 =
      [⟨.POST, "/api/v1/watch", some (.obj [("url", .str "http://x")])⟩] :=
  ⟨rfl, rfl⟩

/-- C8 (amended): for every non-OPTIONS request whose parsed JSON body
is a mapping without an `action` key, the response has status 400 and
`details.required_fields` is the list `["action"]`, with no outbound
call.  (For a non-container body the Python membership test itself
raises `TypeError` and the handler answers 500 — see the
counterexample.) -/
theorem missing_action_field_gives_400 (cfg : Config) (oracle : Oracle)
    (now method : String) (fs : List (String × JVal))
    (hm : method ≠ "OPTIONS") (hlk : jLookup fs "action" = none) :
    (asyncHandler cfg oracle now ⟨method, .ok (.obj fs)⟩).1 = [] ∧
    (asyncHandler cfg oracle now ⟨method, .ok (.obj fs)⟩).2.statusCode
      = 400 ∧
    ∃ dfs, bodyField (asyncHandler cfg oracle now
        ⟨method, .ok (.obj fs)⟩).2 "details" = some (.obj dfs) ∧
      jLookup dfs "required_fields" = some (.arr [.str "action"]) := by
  have hval : validate_request (.obj fs) = .error (.serverless
      ⟨"Missing required field: action", 400,
        .obj [("required_fields", .arr [.str "action"])]⟩) := by
    simp only [validate_request, pyContains, hlk, Option.isSome_none]
  have hcore : asyncCore cfg oracle ⟨method, .ok (.obj fs)⟩ =
      ([], .error (.serverless ⟨"Missing required field: action", 400,
        .obj [("required_fields", .arr [.str "action"])]⟩)) := by
    simp only [asyncCore, hval]
  have hh : asyncHandler cfg oracle now ⟨method, .ok (.obj fs)⟩ =
      ([], create_response cfg 400 (serverlessErrBody
        ⟨"Missing required field: action", 400,
          .obj [("required_fields", .arr [.str "action"])]⟩) now) := by
    unfold asyncHandler
    rw [if_neg hm, hcore]
  rw [hh]
  exact ⟨rfl, rfl, ⟨[("required_fields", .arr [.str "action"])], rfl, rfl⟩⟩

/-- Witness for the amended C8 at a concrete body `{"foo": "bar"}`. -/
theorem missing_action_field_gives_400_witness :
    (asyncHandler cfgA okOracle "T"
        ⟨"POST", .ok (.obj [("foo", .str "bar")])⟩).1 = [] ∧
    (asyncHandler cfgA okOracle "T"
        ⟨"POST", .ok (.obj [("foo", .str "bar")])⟩).2.statusCode = 400 ∧
    ∃ dfs, bodyField (asyncHandler cfgA okOracle "T"
        ⟨"POST", .ok (.obj [("foo", .str "bar")])⟩).2 "details" =
        some (.obj dfs) ∧
      jLookup dfs "required_fields" = some (.arr [.str "action"]) :=
  missing_action_field_gives_400 cfgA okOracle "T" "POST"
    [("foo", .str "bar")] (by decide) rfl

/-- Counterexample to C8 as stated: a request whose parsed JSON body is
the number `5` — a body with no `action` field — is answered with
status 500, not 400 (the Python membership test `"action" in 5` raises
`TypeError`, caught by the outer handler). -/
theorem non_mapping_body_gives_500 :
    (asyncHandler cfgA okOracle "T" ⟨"POST", .ok (.num 5)⟩).2.statusCode
      = 500 ∧
    ((asyncHandler cfgA okOracle "T"
        ⟨"POST", .ok (.num 5)⟩).2.statusCode = 400 → False) :=
  ⟨rfl, by decide⟩

/-- C9: the tool front end never raises: every invocation, for any tool
name and arguments, yields exactly one text content item, and any
failure (missing parameter, unknown tool, or a remote exception) is a
text prefixed with `Error:`; the only other possibility is the
stringified result of a successful remote call. -/
theorem call_tool_single_text_reply (oracle : Oracle) (name : String)
    (args : List (String × JVal)) :
    ∃ t, (call_tool oracle name args).2 = [t] ∧
      ("Error:".data <+: t.data ∨
       ∃ req j, (call_tool oracle name args).1 = [req] ∧
         oracle req = .ok j ∧ t = pyStr j) := by
  have tshape : ∀ req : HttpRequest,
      ∃ t, (toolText oracle req).2 = [t] ∧
        ("Error:".data <+: t.data ∨
         ∃ r j, (toolText oracle req).1 = [r] ∧ oracle r = .ok j ∧
           t = pyStr j) := by
    intro req
    cases h : oracle req with
    | ok j =>
        exact ⟨pyStr j, by simp [toolText, h],
          Or.inr ⟨req, j, by simp [toolText, h], h, rfl⟩⟩
    | error ex =>
        refine ⟨"Error: " ++ ex.msg, by simp [toolText, h], Or.inl ?_⟩
        rw [String.data_append]
        exact ⟨' ' :: ex.msg.data, rfl⟩
  have rqshape : ∀ (field : String) (mk : JVal → HttpRequest),
      "Error:".data <+: ("Error: " ++ field ++ " is required").data →
      ∃ t, (toolRequire args field (fun w => toolText oracle (mk w))).2 =
        [t] ∧
        ("Error:".data <+: t.data ∨
         ∃ r j, (toolRequire args field
             (fun w => toolText oracle (mk w))).1 = [r] ∧
           oracle r = .ok j ∧ t = pyStr j) := by
    intro field mk hpre
    by_cases hc : optTruthy (jLookup args field) = true
    · have e : toolRequire args field (fun w => toolText oracle (mk w)) =
          toolText oracle (mk ((jLookup args field).getD .null)) := by
        simp [toolRequire, hc]
      rw [e]
      exact tshape _
    · have e : toolRequire args field (fun w => toolText oracle (mk w)) =
          ([], ["Error: " ++ field ++ " is required"]) := by
        simp [toolRequire, hc]
      rw [e]
      exact ⟨_, rfl, Or.inl hpre⟩
  by_cases h1 : name = "list_watches"
  · subst h1; exact tshape listWatchesReq
  by_cases h2 : name = "get_watch"
  · subst h2; exact rqshape "watch_id" getWatchReq (by decide)
  by_cases h3 : name = "create_watch"
  · subst h3
    have e0 : call_tool oracle "create_watch" args =
        (if optTruthy (jLookup args "url") then
          toolText oracle (createWatchReq ((jLookup args "url").getD .null)
            (jLookup args "tag"))
        else ([], ["Error: url is required"])) := rfl
    rw [e0]
    by_cases hc : optTruthy (jLookup args "url") = true
    · rw [if_pos hc]
      exact tshape _
    · rw [if_neg hc]
      exact ⟨_, rfl, Or.inl (by decide)⟩
  by_cases h4 : name = "delete_watch"
  · subst h4; exact rqshape "watch_id" deleteWatchReq (by decide)
  by_cases h5 : name = "trigger_check"
  · subst h5; exact rqshape "watch_id" triggerCheckReq (by decide)
  by_cases h6 : name = "get_history"
  · subst h6; exact rqshape "watch_id" getHistoryReq (by decide)
  by_cases h7 : name = "system_info"
  · subst h7; exact tshape systemInfoReq
  have e0 : call_tool oracle name args =
      ([], ["Error: Unknown tool " ++ squote ++ name ++ squote]) := by
    simp [call_tool, h1, h2, h3, h4, h5, h6, h7]
  rw [e0]
  refine ⟨_, rfl, Or.inl ?_⟩
  rw [String.data_append, String.data_append, String.data_append]
  have p1 : "Error:".data <+:
      "Error: Unknown tool ".data ++ squote.data := by decide
  have p2 := List.prefix_append
    ("Error: Unknown tool ".data ++ squote.data) name.data
  have p3 := List.prefix_append
    (("Error: Unknown tool ".data ++ squote.data) ++ name.data) squote.data
  exact p1.trans (p2.trans p3)
